import Mathlib

/-!
Verification of the hn2kindle extraction-and-compilation pipeline.

Shallow embedding of the two core modules:
  * `src/content_extractor.py` — multi-strategy article extraction with
    graceful degradation (trafilatura first, newspaper3k fallback);
  * `src/convert_epub.py` — compilation of an ordered list of post records
    into a single cross-linked EPUB document.

Python strings are modelled as lists of characters (`Str`).  Calls into
external libraries (requests, trafilatura, newspaper3k) are modelled by
explicit outcome values passed as parameters: a library call either raises,
is unavailable (ImportError), or returns its data.  `ebooklib` book assembly
is modelled by an explicit `Book` structure recording the items added, the
table of contents and the spine, in the order the source builds them.
-/

set_option linter.unusedVariables false
set_option linter.unnecessarySeqFocus false

abbrev Str := List Char

namespace HN2Kindle

/-! ## String primitives

Python `str.replace` with a one-character pattern, and with the specific
two-character pattern `"\n\n"` (left-to-right, non-overlapping), and
Python `sep.join(list)`. -/

/-- Python `s.replace(c, r)` for a single-character pattern `c`. -/
def replaceChar (c : Char) (r : Str) : Str → Str
  | [] => []
  | a :: s => (if a = c then r else [a]) ++ replaceChar c r s

/-- Python `s.replace("\n\n", "</p><p>")`: left-to-right, non-overlapping. -/
def replaceNlNl : Str → Str
  | [] => []
  | '\n' :: '\n' :: s => "</p><p>".data ++ replaceNlNl s
  | a :: s => a :: replaceNlNl s

/-- Python `sep.join(parts)`. -/
def joinSep (sep : Str) : List Str → Str
  | [] => []
  | [x] => x
  | x :: xs => x ++ sep ++ joinSep sep xs

/-! ## convert_epub.py -/

/-- `escape_html` (convert_epub.py line 10): replace `&` with `&amp;`,
then `<` with `&lt;`, then `>` with `&gt;`, in that order. -/
def escape_html (text : Str) : Str :=
  replaceChar '>' "&gt;".data (replaceChar '<' "&lt;".data (replaceChar '&' "&amp;".data text))

/-- `create_navigation_html` (convert_epub.py line 15).  Python truthiness of
`prev_id` / `next_id` (`if prev_id:`) is false both for `None` and for an
empty string. -/
def create_navigation_html (prev_id next_id : Option Str) : Str :=
  let prevLinks : List Str :=
    match prev_id with
    | some p => if p.isEmpty then [] else ["<a href=\"".data ++ p ++ ".xhtml\">← Previous</a>".data]
    | none => []
  let nextLinks : List Str :=
    match next_id with
    | some n => if n.isEmpty then [] else ["<a href=\"".data ++ n ++ ".xhtml\">Next →</a>".data]
    | none => []
  let links := prevLinks ++ ["<a href=\"nav.xhtml\">Menu</a>".data] ++ nextLinks
  "<div style=\"margin: 20px 0; padding: 10px; border-top: 1px solid #ccc;\">".data
    ++ joinSep " | ".data links ++ "</div>".data

/-- Displayed source URL (convert_epub.py line 32):
`escape_html(url[:50] + '...' if len(url) > 50 else url)`. -/
def display_url (url : Str) : Str :=
  escape_html (if 50 < url.length then url.take 50 ++ "...".data else url)

/-- Body-to-HTML step of `create_chapter_html` (convert_epub.py lines 36-41):
`if '<' in content and '>' in content` the content is kept verbatim,
otherwise it is escaped, `"\n\n"` is replaced by `"</p><p>"`, `"\n"` by
`"<br/>"`, and the result is wrapped in `<p>...</p>`. -/
def bodyToHtml (content : Str) : Str :=
  if content.contains '<' && content.contains '>' then content
  else
    "<p>".data
      ++ replaceChar '\n' "<br/>".data (replaceNlNl (escape_html content))
      ++ "</p>".data

/-! Literal segments of the chapter template f-string of `create_chapter_html`
(convert_epub.py lines 46-71), split at each interpolation point. -/

def segHead : Str :=
  "<html xmlns=\"http://www.w3.org/1999/xhtml\">\n<head>\n    <title>".data

def segStyle : Str :=
  ("</title>\n    <style type=\"text/css\">\n"
    ++ "        body \x7b font-family: Georgia, serif; line-height: 1.6; padding: 1em; \x7d\n"
    ++ "        h1.chapter-title \x7b font-size: 1.8em; font-weight: bold; margin-top: 1em; margin-bottom: 0.5em; color: #333; \x7d\n"
    ++ "        h2 \x7b font-size: 1.4em; font-weight: bold; margin-top: 1.5em; margin-bottom: 0.5em; color: #444; \x7d\n"
    ++ "        h3 \x7b font-size: 1.2em; font-weight: bold; margin-top: 1.2em; margin-bottom: 0.4em; color: #555; \x7d\n"
    ++ "        .meta \x7b color: #666; font-size: 0.9em; margin-bottom: 1.5em; border-bottom: 1px solid #eee; padding-bottom: 1em; \x7d\n"
    ++ "        .content \x7b text-align: justify; \x7d\n"
    ++ "        a \x7b color: #0066cc; \x7d\n"
    ++ "    </style>\n</head>\n<body>\n    ").data

def segAfterNavTop : Str := "\n    ".data

def segH1Open : Str := "<h1 class=\"chapter-title\">".data

def segH1Close : Str := "</h1>".data

def segMetaOpen : Str := "\n    <div class=\"meta\">\n        ".data

def segByOpen : Str := "<p>By: ".data

def segPClose : Str := "</p>".data

def segSourceTxt : Str := "\n        <p>Source: ".data

def segHrefOpen : Str := "<a href=\"".data

def segHrefMid : Str := "\">".data

def segAClose : Str := "</a>".data

def segContentOpen : Str := "</p>\n    </div>\n    <div class=\"content\">\n        ".data

def segContentClose : Str := "\n    </div>\n    ".data

def segTail : Str := "\n</body>\n</html>".data

/-- `create_chapter_html` (convert_epub.py line 27): the chapter template with
the escaped title (twice), the navigation strip (above and below the body),
the escaped author, the raw URL as link target, the escaped truncated display
URL, and the body HTML spliced in. -/
def create_chapter_html (title author url content : Str) (prev_id next_id : Option Str) : Str :=
  let escaped_title := escape_html title
  let escaped_author := escape_html author
  let displayUrl := display_url url
  let content_html := bodyToHtml content
  let nav_top := create_navigation_html prev_id next_id
  let nav_bottom := create_navigation_html prev_id next_id
  segHead ++ escaped_title ++ segStyle ++ nav_top ++ segAfterNavTop
    ++ segH1Open ++ escaped_title ++ segH1Close ++ segMetaOpen
    ++ segByOpen ++ escaped_author ++ segPClose
    ++ segSourceTxt ++ segHrefOpen ++ url ++ segHrefMid ++ displayUrl ++ segAClose
    ++ segContentOpen ++ content_html ++ segContentClose
    ++ nav_bottom ++ segTail

/-- One input post of `create_epub`: a Python dict whose keys
`title` / `author` / `url` / `content` may each be absent (`none`).
`post.get(k, default)` is `Option.getD`: the default applies only when the
key is absent, not when the stored value is empty. -/
structure Post where
  title : Option Str
  author : Option Str
  url : Option Str
  content : Option Str
deriving DecidableEq

/-- One `epub.EpubHtml` chapter as built by the loop of `create_epub`
(convert_epub.py lines 101-124), together with the positional
`prev_id` / `next_id` computed for it in the loop. -/
structure Chapter where
  title : Str
  file_name : Str
  lang : Str
  content : Str
  prev_id : Option Str
  next_id : Option Str
deriving DecidableEq

/-- The stable chapter identifier: the text chapter_ followed by the
decimal index. -/
def chapter_id (i : Nat) : Str := "chapter_".data ++ (toString i).data

/-- The body of the `for i, post in enumerate(posts)` loop of `create_epub`
for index `i` out of `n = len(posts)` posts. -/
def mkChapter (n i : Nat) (post : Post) : Chapter :=
  let prev_id := if 0 < i then some (chapter_id (i - 1)) else none
  let next_id := if i < n - 1 then some (chapter_id (i + 1)) else none
  let chTitle := post.title.getD ("Post ".data ++ (toString (i + 1)).data)
  { title := chTitle
    file_name := chapter_id i ++ ".xhtml".data
    lang := "en".data
    content := create_chapter_html chTitle
      (post.author.getD "Unknown".data)
      (post.url.getD [])
      (post.content.getD "No content available".data)
      prev_id next_id
    prev_id := prev_id
    next_id := next_id }

/-- The chapter-building loop of `create_epub`, indexed from `i`. -/
def chaptersAux (n : Nat) (i : Nat) : List Post → List Chapter
  | [] => []
  | p :: ps => mkChapter n i p :: chaptersAux n (i + 1) ps

/-- All chapters of a compilation, in input order. -/
def chaptersOf (posts : List Post) : List Chapter :=
  chaptersAux posts.length 0 posts

/-- Resources added to the book via `book.add_item` (each chapter also links
the shared css item; the css resource itself is added once, first). -/
inductive BookItem where
  | css
  | chapterItem (c : Chapter)
  | ncx
  | navDoc
deriving DecidableEq

/-- One entry of `book.spine`: the reserved `"nav"` document or a chapter. -/
inductive SpineEntry where
  | nav
  | chapterRef (c : Chapter)
deriving DecidableEq

/-- The `epub.EpubBook` as assembled by `create_epub`: metadata, resource
items in add order, `book.toc` and `book.spine`. -/
structure Book where
  identifier : Str
  title : Str
  language : Str
  author : Str
  items : List BookItem
  toc : List Chapter
  spine : List SpineEntry

/-- Python `title or default` for `title : Optional[str]`: the default wins
when `title` is `None` or empty. -/
def orTitle (title : Option Str) (default : Str) : Str :=
  match title with
  | some t => if t.isEmpty then default else t
  | none => default

/-- `create_epub` (convert_epub.py line 74).  `today` stands for
`datetime.now().strftime("%Y-%m-%d")`; the final `epub.write_epub` is
modelled by returning the assembled book together with `output_path`
(the function's return value). -/
def create_epub (today : Str) (posts : List Post) (output_path : Str) (title : Option Str) :
    Book × Str :=
  let book_title := orTitle title ("HN Daily - ".data ++ today)
  let chapters := chaptersOf posts
  ({ identifier := "hn-daily-".data ++ today
     title := book_title
     language := "en".data
     author := "HN2Kindle".data
     items := BookItem.css :: (chapters.map BookItem.chapterItem ++ [BookItem.ncx, BookItem.navDoc])
     toc := chapters
     spine := SpineEntry.nav :: chapters.map SpineEntry.chapterRef },
   output_path)

/-! ## content_extractor.py -/

/-- The `ExtractedContent` dataclass (content_extractor.py line 13); the
dataclass defaults are `success = True`, `error = None`. -/
structure ExtractedContent where
  title : Str
  author : Str
  content : Str
  url : Str
  success : Bool
  error : Option Str
deriving DecidableEq

/-- Outcome of the calls into the trafilatura library for one document:
the library may be absent (`ImportError`), raise, or return the
`trafilatura.extract` result (an optional string) together with the
`extract_metadata` title and author (`none` covering both a missing
metadata object and a missing field). -/
inductive TrafLib where
  | missing
  | exn (msg : Str)
  | ok (extractResult : Option Str) (metaTitle : Option Str) (metaAuthor : Option Str)

/-- Outcome of the calls into the newspaper3k library for one document:
absent, raising, or parsed with `article.text`, `article.title` and
`article.authors`. -/
inductive NewsLib where
  | missing
  | exn (msg : Str)
  | ok (text : Str) (title : Str) (authors : List Str)

/-- `extract_with_trafilatura` (content_extractor.py line 24): ImportError
and any library exception are caught and yield `None`; a falsy (absent or
empty) `trafilatura.extract` result yields `None`; otherwise a record with
the metadata title/author (empty string when unavailable) is produced with
the dataclass defaults `success = True`, `error = None`. -/
def extract_with_trafilatura (url html : Str) (lib : TrafLib) : Option ExtractedContent :=
  match lib with
  | .missing => none
  | .exn _ => none
  | .ok extractResult metaTitle metaAuthor =>
    match extractResult with
    | none => none
    | some result =>
      if result.isEmpty then none
      else
        some { title := metaTitle.getD []
               author := metaAuthor.getD []
               content := result
               url := url
               success := true
               error := none }

/-- `extract_with_newspaper` (content_extractor.py line 52): ImportError and
exceptions yield `None`; an empty `article.text` yields `None`; otherwise a
record with `article.title or ""` and the authors joined by `", "` (empty
string when the author list is empty). -/
def extract_with_newspaper (url html : Str) (lib : NewsLib) : Option ExtractedContent :=
  match lib with
  | .missing => none
  | .exn _ => none
  | .ok text title authors =>
    if text.isEmpty then none
    else
      some { title := title
             author := if authors.isEmpty then [] else joinSep ", ".data authors
             content := text
             url := url
             success := true
             error := none }

/-- Outcome of the single `requests.get` + `raise_for_status` fetch:
either the response text, or a `requests.RequestException` (timeout,
connection error, or non-2xx status via `raise_for_status`). -/
inductive FetchResult where
  | ok (html : Str)
  | reqError (msg : Str)

/-- The fixed placeholder body used when every strategy failed
(content_extractor.py line 113). -/
def noContentSentinel : Str := "[Content could not be extracted from this page]".data

/-- `extract_content` (content_extractor.py line 76): a fetch failure
short-circuits to a failed record; otherwise trafilatura is tried first and
its result returned when it has truthy (non-empty) content, then newspaper3k
likewise, and exhaustion returns the sentinel failure record. -/
def extract_content (url : Str) (fetch : FetchResult) (traf : TrafLib) (news : NewsLib) :
    ExtractedContent :=
  match fetch with
  | .reqError e =>
    { title := [], author := [], content := [], url := url
      success := false, error := some ("Failed to fetch URL: ".data ++ e) }
  | .ok html =>
    let exhausted : ExtractedContent :=
      { title := [], author := [], content := noContentSentinel, url := url
        success := false, error := some "All extraction methods failed".data }
    let step2 : ExtractedContent :=
      match extract_with_newspaper url html news with
      | some r => if r.content.isEmpty then exhausted else r
      | none => exhausted
    match extract_with_trafilatura url html traf with
    | some r => if r.content.isEmpty then step2 else r
    | none => step2

/-! ## Spec-side vocabulary

Definitions taken from the specification's words, used to state the claims
and compared against the source-derived definitions above. -/

/-- Per-character view of HTML escaping: what one character contributes to
the escaped output. -/
def escChar (a : Char) : Str :=
  if a = '&' then "&amp;".data
  else if a = '<' then "&lt;".data
  else if a = '>' then "&gt;".data
  else [a]

/-- A string in which `&`, `<` and `>` occur only as the escaped entities:
no raw `<` or `>` at all, and every `&` begins `&amp;`, `&lt;` or `&gt;`. -/
def escapedOnly : Str → Bool
  | [] => true
  | a :: s =>
    if a = '<' then false
    else if a = '>' then false
    else if a = '&' then
      ("amp;".data.isPrefixOf s || "lt;".data.isPrefixOf s || "gt;".data.isPrefixOf s)
        && escapedOnly s
    else escapedOnly s

/-- Modelled from the spec: a body "contains at least one `<` character
followed later by a `>` character" (the spec's content-shape condition for
treating a body as HTML). -/
def specHtmlShaped : Str → Bool
  | [] => false
  | a :: s => if a = '<' then s.contains '>' else specHtmlShaped s

/-- Splitting at each (left-to-right, non-overlapping) occurrence of the
blank-line delimiter `"\n\n"`. -/
def splitOnNlNl : Str → List Str
  | [] => [[]]
  | '\n' :: '\n' :: s => [] :: splitOnNlNl s
  | a :: s =>
    match splitOnNlNl s with
    | [] => [[a]]
    | t :: ts => (a :: t) :: ts

/-- Modelled from the spec: plain-text reflow, stated segment-wise — the
blank-line-delimited segments each become one escaped paragraph block (with
remaining single newlines as line breaks), joined as adjacent `<p>`
blocks. -/
def specReflow (content : Str) : Str :=
  "<p>".data
    ++ joinSep "</p><p>".data
        ((splitOnNlNl content).map fun seg => replaceChar '\n' "<br/>".data (escape_html seg))
    ++ "</p>".data

/-- Whitespace trimming (Python `str.strip()`). -/
def trimWs (s : Str) : Str :=
  ((s.dropWhile Char.isWhitespace).reverse.dropWhile Char.isWhitespace).reverse

/-! ## Helper lemmas on the string primitives -/

theorem replaceChar_append (c : Char) (r s t : Str) :
    replaceChar c r (s ++ t) = replaceChar c r s ++ replaceChar c r t := by
  induction s with
  | nil => rfl
  | cons a s ih => simp [replaceChar, ih]

theorem replaceChar_of_not_mem (c : Char) (r s : Str) (h : c ∉ s) :
    replaceChar c r s = s := by
  induction s with
  | nil => rfl
  | cons a s ih =>
    simp only [List.mem_cons, not_or] at h
    simp [replaceChar, Ne.symm h.1, ih h.2]

theorem length_replaceChar (c : Char) (r s : Str) (h : r ≠ []) :
    s.length ≤ (replaceChar c r s).length := by
  induction s with
  | nil => simp [replaceChar]
  | cons a s ih =>
    simp only [replaceChar, List.length_append, List.length_cons]
    have : 1 ≤ (if a = c then r else [a]).length := by
      split
      · exact List.length_pos_of_ne_nil h
      · simp
    omega

theorem joinSep_pair (sep x y : Str) (ys : List Str) :
    joinSep sep (x :: y :: ys) = x ++ sep ++ joinSep sep (y :: ys) := rfl

theorem joinSep_cons_head (sep : Str) (a : Char) (t : Str) (ts : List Str) :
    joinSep sep ((a :: t) :: ts) = a :: joinSep sep (t :: ts) := by
  cases ts <;> rfl

/-! Per-character behaviour of `escape_html`. -/

theorem escape_single (a : Char) : escape_html [a] = escChar a := by
  by_cases h1 : a = '&'
  · subst h1; rfl
  · by_cases h2 : a = '<'
    · subst h2; rfl
    · by_cases h3 : a = '>'
      · subst h3; rfl
      · simp [escape_html, escChar, replaceChar, h1, h2, h3]

theorem escape_html_cons (a : Char) (s : Str) :
    escape_html (a :: s) = escChar a ++ escape_html s := by
  have h : (a :: s) = [a] ++ s := rfl
  rw [h]
  simp only [escape_html, replaceChar_append]
  have h2 := escape_single a
  simp only [escape_html] at h2
  rw [h2]

theorem escape_html_eq_flatten (s : Str) : escape_html s = (s.map escChar).flatten := by
  induction s with
  | nil => rfl
  | cons a s ih => simp [escape_html_cons, ih]

theorem escChar_ne_nil (a : Char) : escChar a ≠ [] := by
  unfold escChar
  split
  · simp
  · split
    · simp
    · split <;> simp

theorem length_escape_html (s : Str) : s.length ≤ (escape_html s).length := by
  induction s with
  | nil => simp [escape_html, replaceChar]
  | cons a s ih =>
    rw [escape_html_cons]
    have h1 : 1 ≤ (escChar a).length := List.length_pos_of_ne_nil (escChar_ne_nil a)
    simp only [List.length_append, List.length_cons]
    omega

theorem not_nl_escChar (a : Char) (h : a ≠ '\n') : '\n' ∉ escChar a := by
  unfold escChar
  split
  · decide
  · split
    · decide
    · split
      · decide
      · simp [Ne.symm h]

/-! `escapedOnly` holds of every escaped string. -/

theorem escapedOnly_escChar (a : Char) (t : Str) :
    escapedOnly (escChar a ++ t) = escapedOnly t := by
  by_cases h1 : a = '&'
  · subst h1; simp [escChar, escapedOnly, List.isPrefixOf]
  · by_cases h2 : a = '<'
    · subst h2; simp [escChar, escapedOnly, List.isPrefixOf]
    · by_cases h3 : a = '>'
      · subst h3; simp [escChar, escapedOnly, List.isPrefixOf]
      · rw [show escChar a = [a] by simp [escChar, h1, h2, h3]]
        simp [escapedOnly, h1, h2, h3]

theorem escapedOnly_escape_html (s : Str) : escapedOnly (escape_html s) = true := by
  induction s with
  | nil => rfl
  | cons a s ih => rw [escape_html_cons, escapedOnly_escChar]; exact ih

/-! Unfolding equations for the `"\n\n"` scanners. -/

theorem replaceNlNl_singleton (a : Char) : replaceNlNl [a] = [a] := by
  rw [replaceNlNl.eq_def]
  split
  · simp_all
  · simp_all
  · rename_i a' s' heq
    injection heq with h1 h2
    subst h1; subst h2
    rfl

theorem replaceNlNl_nlnl (s : Str) :
    replaceNlNl ('\n' :: '\n' :: s) = "</p><p>".data ++ replaceNlNl s := rfl

theorem replaceNlNl_cons₂ (a b : Char) (s : Str) (h : ¬(a = '\n' ∧ b = '\n')) :
    replaceNlNl (a :: b :: s) = a :: replaceNlNl (b :: s) := by
  rw [replaceNlNl.eq_def]
  split
  · simp_all
  · rename_i s' heq
    rw [List.cons.injEq, List.cons.injEq] at heq
    exact absurd ⟨heq.1, heq.2.1⟩ h
  · rename_i a' s' heq
    injection heq with h1 h2
    subst h1; subst h2
    rfl

theorem splitOnNlNl_singleton (a : Char) : splitOnNlNl [a] = [[a]] := by
  rw [splitOnNlNl.eq_def]
  split
  · simp_all
  · simp_all
  · rename_i a' s' heq
    injection heq with h1 h2
    subst h1; subst h2
    rfl

theorem splitOnNlNl_nlnl (s : Str) :
    splitOnNlNl ('\n' :: '\n' :: s) = [] :: splitOnNlNl s := rfl

theorem splitOnNlNl_cons₂ (a b : Char) (s : Str) (h : ¬(a = '\n' ∧ b = '\n')) :
    splitOnNlNl (a :: b :: s) =
      match splitOnNlNl (b :: s) with
      | [] => [[a]]
      | t :: ts => (a :: t) :: ts := by
  rw [splitOnNlNl.eq_def]
  split
  · simp_all
  · rename_i s' heq
    rw [List.cons.injEq, List.cons.injEq] at heq
    exact absurd ⟨heq.1, heq.2.1⟩ h
  · rename_i a' s' heq
    injection heq with h1 h2
    subst h1; subst h2
    rfl

/-- Unfolding equation: a head character that does not start a `"\n\n"`
occurrence is copied and scanning continues on the tail. -/
theorem replaceNlNl_cons (a : Char) (s : Str)
    (h : ∀ s1, a = '\n' → s = '\n' :: s1 → False) :
    replaceNlNl (a :: s) = a :: replaceNlNl s := by
  cases s with
  | nil => exact replaceNlNl_singleton a
  | cons b s' =>
    have hne : ¬(a = '\n' ∧ b = '\n') := fun ⟨ha, hb⟩ => h s' ha (by rw [hb])
    exact replaceNlNl_cons₂ a b s' hne

/-- Unfolding equation for `splitOnNlNl` at a head character that does not
start a `"\n\n"` occurrence, given the split of the tail. -/
theorem splitOnNlNl_cons (a : Char) (s : Str)
    (h : ∀ s1, a = '\n' → s = '\n' :: s1 → False) (t : Str) (ts : List Str)
    (hts : splitOnNlNl s = t :: ts) :
    splitOnNlNl (a :: s) = (a :: t) :: ts := by
  cases s with
  | nil =>
    have h0 : ([[]] : List Str) = t :: ts := hts
    injection h0 with h1 h2
    rw [splitOnNlNl_singleton, ← h1, ← h2]
  | cons b s' =>
    have hne : ¬(a = '\n' ∧ b = '\n') := fun ⟨ha, hb⟩ => h s' ha (by rw [hb])
    rw [splitOnNlNl_cons₂ a b s' hne, hts]

theorem splitOnNlNl_ne_nil (s : Str) : splitOnNlNl s ≠ [] := by
  induction s using splitOnNlNl.induct with
  | case1 => simp [splitOnNlNl]
  | case2 s ih => rw [splitOnNlNl_nlnl]; simp
  | case3 a s h hnil ih => exact absurd hnil ih
  | case4 a s h t ts hts ih => rw [splitOnNlNl_cons a s h t ts hts]; simp

theorem length_replaceNlNl (s : Str) : s.length ≤ (replaceNlNl s).length := by
  induction s using replaceNlNl.induct with
  | case1 => simp [replaceNlNl]
  | case2 s ih => rw [replaceNlNl_nlnl]; simp only [List.length_append, List.length_cons]; omega
  | case3 a s h ih =>
    rw [replaceNlNl_cons a s h]
    simp only [List.length_cons]
    omega

/-- The `"\n\n" → "</p><p>"` replacement is the blank-line split re-joined
with `"</p><p>"` as separator. -/
theorem replaceNlNl_eq_joinSep (s : Str) :
    replaceNlNl s = joinSep "</p><p>".data (splitOnNlNl s) := by
  induction s using replaceNlNl.induct with
  | case1 => rfl
  | case2 s ih =>
    rw [replaceNlNl_nlnl, splitOnNlNl_nlnl, ih]
    obtain ⟨u, us, hu⟩ := List.exists_cons_of_ne_nil (splitOnNlNl_ne_nil s)
    rw [hu, joinSep_pair]
    simp
  | case3 a s h ih =>
    obtain ⟨u, us, hu⟩ := List.exists_cons_of_ne_nil (splitOnNlNl_ne_nil s)
    rw [replaceNlNl_cons a s h, splitOnNlNl_cons a s h u us hu, ih, hu, joinSep_cons_head]

/-- Prepending a newline-free block extends the first blank-line segment. -/
theorem splitOnNlNl_append_of_nlfree (x : Str) (hx : '\n' ∉ x) :
    ∀ t u us, splitOnNlNl t = u :: us → splitOnNlNl (x ++ t) = (x ++ u) :: us := by
  induction x with
  | nil => intro t u us ht; simpa using ht
  | cons c x' ih =>
    intro t u us ht
    simp only [List.mem_cons, not_or] at hx
    have hc : c ≠ '\n' := fun h => hx.1 h.symm
    have ih' := ih hx.2 t u us ht
    have hcons : ∀ s1, c = '\n' → x' ++ t = '\n' :: s1 → False := fun _ h1 _ => hc h1
    have h2 := splitOnNlNl_cons c (x' ++ t) hcons (x' ++ u) us ih'
    simpa using h2

/-- Escaping commutes with the blank-line split: `escape_html` maps `'\n'`
to itself and introduces no newline. -/
theorem splitOnNlNl_escape_html (s : Str) :
    splitOnNlNl (escape_html s) = (splitOnNlNl s).map escape_html := by
  induction s using splitOnNlNl.induct with
  | case1 => rfl
  | case2 s ih =>
    rw [escape_html_cons, escape_html_cons]
    simp only [show escChar '\n' = ['\n'] from rfl, List.cons_append, List.nil_append]
    rw [splitOnNlNl_nlnl, splitOnNlNl_nlnl, ih, List.map_cons]
    rfl
  | case3 a s h hnil ih => exact absurd hnil (splitOnNlNl_ne_nil s)
  | case4 a s h t ts hts ih =>
    have hmap : splitOnNlNl (escape_html s) = escape_html t :: List.map escape_html ts := by
      rw [ih, hts]; rfl
    by_cases ha : a = '\n'
    · subst ha
      have hesc : escape_html ('\n' :: s) = '\n' :: escape_html s := by
        rw [escape_html_cons]; rfl
      have hcons : ∀ s1, ('\n' : Char) = '\n' → escape_html s = '\n' :: s1 → False := by
        intro s1 _ hs1
        cases s with
        | nil => simp [escape_html, replaceChar] at hs1
        | cons b s' =>
          rw [escape_html_cons] at hs1
          have hb : b ≠ '\n' := fun hb => h s' rfl (by rw [hb])
          have hnl := not_nl_escChar b hb
          rcases hb' : escChar b with _ | ⟨c, cs⟩
          · exact absurd hb' (escChar_ne_nil b)
          · rw [hb'] at hs1
            simp only [List.cons_append] at hs1
            injection hs1 with h1 _
            rw [hb'] at hnl
            exact hnl (by rw [← h1]; exact List.mem_cons_self c cs)
      rw [hesc, splitOnNlNl_cons '\n' (escape_html s) hcons _ _ hmap,
        splitOnNlNl_cons '\n' s h t ts hts]
      simp only [List.map_cons]
      rw [escape_html_cons]
      rfl
    · have hafree := not_nl_escChar a ha
      rw [escape_html_cons,
        splitOnNlNl_append_of_nlfree (escChar a) hafree _ _ _ hmap,
        splitOnNlNl_cons a s h t ts hts]
      simp only [List.map_cons]
      rw [escape_html_cons]

/-- Replacing `'\n'` with `"<br/>"` distributes over the
`"</p><p>"`-joined segments (the separator has no newline). -/
theorem replaceChar_nl_joinSep (L : List Str) :
    replaceChar '\n' "<br/>".data (joinSep "</p><p>".data L)
      = joinSep "</p><p>".data (L.map (replaceChar '\n' "<br/>".data)) := by
  induction L with
  | nil => rfl
  | cons x xs ih =>
    cases xs with
    | nil => rfl
    | cons y ys =>
      rw [joinSep_pair, replaceChar_append, replaceChar_append,
        replaceChar_of_not_mem '\n' _ "</p><p>".data (by decide), ih]
      simp only [List.map_cons]
      rw [joinSep_pair]

/-- On plain-text bodies the source's escape-then-replace pipeline equals the
segment-wise reflow of the spec. -/
theorem bodyToHtml_reflow (content : Str)
    (h : (content.contains '<' && content.contains '>') = false) :
    bodyToHtml content = specReflow content := by
  unfold bodyToHtml specReflow
  rw [if_neg (by rw [h]; decide)]
  rw [replaceNlNl_eq_joinSep, splitOnNlNl_escape_html, replaceChar_nl_joinSep, List.map_map]
  rfl

/-- A plain-text body is never embedded verbatim: the reflowed form is
strictly longer (the `<p>`/`</p>` wrapper alone adds seven characters). -/
theorem bodyToHtml_ne_of_plain (content : Str)
    (h : (content.contains '<' && content.contains '>') = false) :
    bodyToHtml content ≠ content := by
  intro heq
  have hlen := congrArg List.length heq
  unfold bodyToHtml at hlen
  rw [if_neg (by rw [h]; decide)] at hlen
  rw [List.length_append, List.length_append] at hlen
  rw [show (("<p>".data : Str)).length = 3 from rfl] at hlen
  rw [show (("</p>".data : Str)).length = 4 from rfl] at hlen
  have h1 := length_escape_html content
  have h2 := length_replaceNlNl (escape_html content)
  have h3 := length_replaceChar '\n' "<br/>".data (replaceNlNl (escape_html content)) (by decide)
  omega

/-! ## Claim theorems -/

/-- C2 counterexample: the body `">x<"` contains a `<` and a `>` but no `<`
followed later by a `>`; the code still embeds it verbatim (and verbatim is
not what reflow would produce), refuting the claimed iff-condition. -/
theorem C2_counterexample :
    bodyToHtml ">x<".data = ">x<".data
    ∧ specHtmlShaped ">x<".data = false
    ∧ specReflow ">x<".data ≠ ">x<".data := by
  refine ⟨by decide, by decide, by decide⟩

/-- C2 (amended): a body is embedded verbatim as HTML if and only if it
contains at least one `<` character and at least one `>` character (in either
order); otherwise it is escaped and reflowed so that blank-line-delimited
segments become separate paragraph blocks and remaining single newlines
become line breaks, with no other transformation. -/
theorem C2_amended (content : Str) :
    ((content.contains '<' && content.contains '>') = true → bodyToHtml content = content)
    ∧ ((content.contains '<' && content.contains '>') = false →
        bodyToHtml content = specReflow content ∧ bodyToHtml content ≠ content) := by
  constructor
  · intro h
    unfold bodyToHtml
    rw [if_pos h]
  · intro h
    exact ⟨bodyToHtml_reflow content h, bodyToHtml_ne_of_plain content h⟩

/-- Witness for C2 at the spec's own examples: an HTML-shaped body is kept
verbatim and a two-paragraph plain body is reflowed segment-wise. -/
theorem C2_witness :
    bodyToHtml "<h2>X</h2><p>Y</p>".data = "<h2>X</h2><p>Y</p>".data
    ∧ bodyToHtml "Para one.\n\nPara two.".data = specReflow "Para one.\n\nPara two.".data :=
  ⟨(C2_amended "<h2>X</h2><p>Y</p>".data).1 (by decide),
   ((C2_amended "Para one.\n\nPara two.".data).2 (by decide)).1⟩

/-- C5: a transport failure (timeout, connection error, non-2xx status — all
surfaced as `requests.RequestException`) short-circuits to a failed record
whose `error` names the transport failure; the result does not depend on
either extraction strategy, which are never consulted. -/
theorem C5_transport_failure (url e : Str) (traf : TrafLib) (news : NewsLib) :
    extract_content url (FetchResult.reqError e) traf news
      = { title := [], author := [], content := [], url := url,
          success := false, error := some ("Failed to fetch URL: ".data ++ e) }
    ∧ extract_content url (FetchResult.reqError e) traf news
        = extract_content url (FetchResult.reqError e) TrafLib.missing NewsLib.missing :=
  ⟨rfl, rfl⟩

/-- C6: when the structured (trafilatura) strategy yields a record with
non-empty content, `extract_content` returns exactly that record, whatever
the fallback strategy would do. -/
theorem C6_short_circuit (url html : Str) (traf : TrafLib) (news : NewsLib)
    (r : ExtractedContent) (hr : extract_with_trafilatura url html traf = some r)
    (hc : r.content ≠ []) :
    extract_content url (FetchResult.ok html) traf news = r := by
  simp [extract_content, hr, List.isEmpty_iff, hc]

/-- Witness for C6: a concrete trafilatura success is returned unchanged even
though the newspaper strategy would raise. -/
theorem C6_witness :
    extract_content "u".data (FetchResult.ok "<html>".data)
        (TrafLib.ok (some "x".data) none none) (NewsLib.exn "boom".data)
      = { title := [], author := [], content := "x".data, url := "u".data,
          success := true, error := none } :=
  C6_short_circuit "u".data "<html>".data (TrafLib.ok (some "x".data) none none)
    (NewsLib.exn "boom".data) _ rfl (by decide)

/-- C9: compiling an empty record list yields the output location and a valid
zero-chapter document: the spine holds only the navigation entry, the table
of contents is empty, and the bundle holds only the stylesheet, NCX and
navigation resources. -/
theorem C9_empty_input (today out : Str) (btitle : Option Str) :
    (create_epub today [] out btitle).2 = out
    ∧ (create_epub today [] out btitle).1.spine = [SpineEntry.nav]
    ∧ (create_epub today [] out btitle).1.toc = []
    ∧ (create_epub today [] out btitle).1.items = [BookItem.css, BookItem.ncx, BookItem.navDoc] :=
  ⟨rfl, rfl, rfl, rfl⟩

/-- C8: every caller-provided text field rendered into a chapter view is
escaped: the escaped forms contain `&`, `<`, `>` only as the entities
`&amp;`, `&lt;`, `&gt;` (each source character mapping to its literal
entity), and it is those escaped forms that the chapter view embeds in the
title heading and the author line. -/
theorem C8_escaped_rendering (title author url content : Str) (prev_id next_id : Option Str) :
    escapedOnly (escape_html title) = true
    ∧ escapedOnly (escape_html author) = true
    ∧ escapedOnly (display_url url) = true
    ∧ escape_html title = (title.map escChar).flatten
    ∧ (segH1Open ++ escape_html title ++ segH1Close) <:+:
        create_chapter_html title author url content prev_id next_id
    ∧ (segByOpen ++ escape_html author ++ segPClose) <:+:
        create_chapter_html title author url content prev_id next_id := by
  refine ⟨escapedOnly_escape_html title, escapedOnly_escape_html author,
    escapedOnly_escape_html _, escape_html_eq_flatten title, ?_, ?_⟩
  · exact ⟨segHead ++ escape_html title ++ segStyle
        ++ create_navigation_html prev_id next_id ++ segAfterNavTop,
      segMetaOpen ++ segByOpen ++ escape_html author ++ segPClose
        ++ segSourceTxt ++ segHrefOpen ++ url ++ segHrefMid ++ display_url url ++ segAClose
        ++ segContentOpen ++ bodyToHtml content ++ segContentClose
        ++ create_navigation_html prev_id next_id ++ segTail,
      by simp [create_chapter_html, List.append_assoc]⟩
  · exact ⟨segHead ++ escape_html title ++ segStyle
        ++ create_navigation_html prev_id next_id ++ segAfterNavTop
        ++ segH1Open ++ escape_html title ++ segH1Close ++ segMetaOpen,
      segSourceTxt ++ segHrefOpen ++ url ++ segHrefMid ++ display_url url ++ segAClose
        ++ segContentOpen ++ bodyToHtml content ++ segContentClose
        ++ create_navigation_html prev_id next_id ++ segTail,
      by simp [create_chapter_html, List.append_assoc]⟩

/-- C10: the link target of the source link is the raw caller URL,
character-for-character (never escaped, never truncated), while the displayed
link text is the escaped form of the URL truncated to 50 characters plus a
trailing ellipsis exactly when the URL is longer than 50 characters. -/
theorem C10_href_verbatim (title author url content : Str) (prev_id next_id : Option Str) :
    (segHrefOpen ++ url ++ segHrefMid ++ display_url url ++ segAClose) <:+:
        create_chapter_html title author url content prev_id next_id
    ∧ (50 < url.length → display_url url = escape_html (url.take 50 ++ "...".data))
    ∧ (url.length ≤ 50 → display_url url = escape_html url) := by
  refine ⟨⟨segHead ++ escape_html title ++ segStyle
        ++ create_navigation_html prev_id next_id ++ segAfterNavTop
        ++ segH1Open ++ escape_html title ++ segH1Close ++ segMetaOpen
        ++ segByOpen ++ escape_html author ++ segPClose ++ segSourceTxt,
      segContentOpen ++ bodyToHtml content ++ segContentClose
        ++ create_navigation_html prev_id next_id ++ segTail,
      by simp [create_chapter_html, List.append_assoc]⟩, ?_, ?_⟩
  · intro h
    unfold display_url
    rw [if_pos h]
  · intro h
    unfold display_url
    rw [if_neg (by omega)]

/-- Witness for C10 at a 59-character URL containing `&`, `<` and `>`: the
href segment embeds it raw while the display text is escaped-and-truncated. -/
theorem C10_witness :
    (segHrefOpen ++ "https://example.com/articles?id=123&ref=<feed>&x=0123456789".data
        ++ segHrefMid
        ++ display_url "https://example.com/articles?id=123&ref=<feed>&x=0123456789".data
        ++ segAClose) <:+:
      create_chapter_html "T".data "A".data
        "https://example.com/articles?id=123&ref=<feed>&x=0123456789".data
        "B".data none none
    ∧ display_url "https://example.com/articles?id=123&ref=<feed>&x=0123456789".data
        = escape_html ("https://example.com/articles?id=123&ref=<feed>&x=0123456789".data.take 50
            ++ "...".data) :=
  ⟨(C10_href_verbatim "T".data "A".data
      "https://example.com/articles?id=123&ref=<feed>&x=0123456789".data
      "B".data none none).1,
   (C10_href_verbatim "T".data "A".data
      "https://example.com/articles?id=123&ref=<feed>&x=0123456789".data
      "B".data none none).2.1 (by decide)⟩

/-! Indexing lemmas for the chapter-building loop. -/

theorem chaptersAux_length (n i : Nat) (ps : List Post) :
    (chaptersAux n i ps).length = ps.length := by
  induction ps generalizing i with
  | nil => rfl
  | cons p ps ih => simp [chaptersAux, ih]

theorem chaptersAux_get (n : Nat) (ps : List Post) :
    ∀ (i j : Nat) (hj : j < (chaptersAux n i ps).length) (hj2 : j < ps.length),
      (chaptersAux n i ps).get ⟨j, hj⟩ = mkChapter n (i + j) (ps.get ⟨j, hj2⟩) := by
  induction ps with
  | nil => intro i j hj hj2; exact absurd hj2 (by simp)
  | cons p ps ih =>
    intro i j hj hj2
    cases j with
    | zero => simp [chaptersAux]
    | succ j' =>
      have h1 : j' < (chaptersAux n (i + 1) ps).length := by
        simp only [chaptersAux, List.length_cons] at hj
        omega
      have h2 : j' < ps.length := by
        simp only [List.length_cons] at hj2
        omega
      have hrec := ih (i + 1) j' h1 h2
      have hstep : (chaptersAux n i (p :: ps)).get ⟨j' + 1, hj⟩
          = (chaptersAux n (i + 1) ps).get ⟨j', h1⟩ := by
        simp [chaptersAux, List.get_cons_succ]
      rw [hstep, hrec]
      have harith : i + 1 + j' = i + (j' + 1) := by omega
      rw [harith]
      rfl

theorem chaptersOf_length (posts : List Post) :
    (chaptersOf posts).length = posts.length :=
  chaptersAux_length posts.length 0 posts

theorem chaptersOf_get (posts : List Post) (j : Nat) (hj : j < (chaptersOf posts).length)
    (hj2 : j < posts.length) :
    (chaptersOf posts).get ⟨j, hj⟩ = mkChapter posts.length j (posts.get ⟨j, hj2⟩) := by
  have := chaptersAux_get posts.length posts 0 j hj hj2
  simpa using this

/-- C4: for a non-empty input list the compiled document has the navigation
entry first in the spine followed by one chapter per record in input order,
the table of contents lists the same chapters in the same order, and chapter
`i` links back to chapter `i-1` (absent at the start) and forward to chapter
`i+1` (absent at the end). -/
theorem C4_document_structure (today out : Str) (btitle : Option Str) (posts : List Post)
    (hne : posts ≠ []) :
    (create_epub today posts out btitle).1.toc = chaptersOf posts
    ∧ (chaptersOf posts).length = posts.length
    ∧ (create_epub today posts out btitle).1.spine
        = SpineEntry.nav :: (chaptersOf posts).map SpineEntry.chapterRef
    ∧ (create_epub today posts out btitle).1.spine.length = posts.length + 1
    ∧ (∀ i hi, ((chaptersOf posts).get ⟨i, hi⟩).prev_id
          = if i = 0 then none else some (chapter_id (i - 1)))
    ∧ (∀ i hi, ((chaptersOf posts).get ⟨i, hi⟩).next_id
          = if i = posts.length - 1 then none else some (chapter_id (i + 1))) := by
  refine ⟨rfl, chaptersOf_length posts, rfl, ?_, ?_, ?_⟩
  · simp [create_epub, chaptersOf_length posts]
  · intro i hi
    have hi2 : i < posts.length := by rw [← chaptersOf_length posts]; exact hi
    rw [chaptersOf_get posts i hi hi2]
    show (if 0 < i then some (chapter_id (i - 1)) else none)
        = if i = 0 then none else some (chapter_id (i - 1))
    rcases Nat.eq_zero_or_pos i with h0 | h0
    · rw [if_neg (by omega), if_pos h0]
    · rw [if_pos h0, if_neg (by omega)]
  · intro i hi
    have hi2 : i < posts.length := by rw [← chaptersOf_length posts]; exact hi
    rw [chaptersOf_get posts i hi hi2]
    show (if i < posts.length - 1 then some (chapter_id (i + 1)) else none)
        = if i = posts.length - 1 then none else some (chapter_id (i + 1))
    by_cases hlast : i = posts.length - 1
    · rw [if_neg (by omega), if_pos hlast]
    · rw [if_pos (by omega), if_neg hlast]

/-- Witness for C4 at the spec's two-record scenario. -/
theorem C4_witness :
    (create_epub "2025-10-12".data
        [⟨some "A".data, some [], some "http://x".data, some "hello".data⟩,
         ⟨some "B".data, some "Bob".data, some "http://y".data, some "<h2>H</h2>world".data⟩]
        "out.epub".data none).1.toc
      = chaptersOf
          [⟨some "A".data, some [], some "http://x".data, some "hello".data⟩,
           ⟨some "B".data, some "Bob".data, some "http://y".data, some "<h2>H</h2>world".data⟩]
    ∧ (chaptersOf
          [⟨some "A".data, some [], some "http://x".data, some "hello".data⟩,
           ⟨some "B".data, some "Bob".data, some "http://y".data, some "<h2>H</h2>world".data⟩]).length
        = ([⟨some "A".data, some [], some "http://x".data, some "hello".data⟩,
            ⟨some "B".data, some "Bob".data, some "http://y".data, some "<h2>H</h2>world".data⟩] : List Post).length
    ∧ (create_epub "2025-10-12".data
        [⟨some "A".data, some [], some "http://x".data, some "hello".data⟩,
         ⟨some "B".data, some "Bob".data, some "http://y".data, some "<h2>H</h2>world".data⟩]
        "out.epub".data none).1.spine
        = SpineEntry.nav :: (chaptersOf
            [⟨some "A".data, some [], some "http://x".data, some "hello".data⟩,
             ⟨some "B".data, some "Bob".data, some "http://y".data, some "<h2>H</h2>world".data⟩]).map
            SpineEntry.chapterRef
    ∧ (create_epub "2025-10-12".data
        [⟨some "A".data, some [], some "http://x".data, some "hello".data⟩,
         ⟨some "B".data, some "Bob".data, some "http://y".data, some "<h2>H</h2>world".data⟩]
        "out.epub".data none).1.spine.length
        = ([⟨some "A".data, some [], some "http://x".data, some "hello".data⟩,
            ⟨some "B".data, some "Bob".data, some "http://y".data, some "<h2>H</h2>world".data⟩] : List Post).length + 1
    ∧ (∀ i hi, ((chaptersOf
            [⟨some "A".data, some [], some "http://x".data, some "hello".data⟩,
             ⟨some "B".data, some "Bob".data, some "http://y".data, some "<h2>H</h2>world".data⟩]).get
            ⟨i, hi⟩).prev_id
          = if i = 0 then none else some (chapter_id (i - 1)))
    ∧ (∀ i hi, ((chaptersOf
            [⟨some "A".data, some [], some "http://x".data, some "hello".data⟩,
             ⟨some "B".data, some "Bob".data, some "http://y".data, some "<h2>H</h2>world".data⟩]).get
            ⟨i, hi⟩).next_id
          = if i = ([⟨some "A".data, some [], some "http://x".data, some "hello".data⟩,
                     ⟨some "B".data, some "Bob".data, some "http://y".data, some "<h2>H</h2>world".data⟩] : List Post).length - 1
              then none else some (chapter_id (i + 1))) :=
  C4_document_structure "2025-10-12".data "out.epub".data none
    [⟨some "A".data, some [], some "http://x".data, some "hello".data⟩,
     ⟨some "B".data, some "Bob".data, some "http://y".data, some "<h2>H</h2>world".data⟩]
    (by simp)

/-- C1 counterexample: a record carrying an explicitly empty `title` (and
empty `author`) compiles to a chapter whose title is the empty string, not
the positional placeholder, and whose view is rendered with the empty author,
not the `Unknown` placeholder. -/
theorem C1_counterexample :
    ((create_epub "2025-10-12".data
        [⟨some [], some [], some "http://x".data, some "hello".data⟩]
        "out.epub".data none).1.toc.map Chapter.title) = [[]]
    ∧ ([] : Str) ≠ "Post 1".data
    ∧ ((create_epub "2025-10-12".data
        [⟨some [], some [], some "http://x".data, some "hello".data⟩]
        "out.epub".data none).1.toc.map Chapter.content)
        = [create_chapter_html [] [] "http://x".data "hello".data none none]
    ∧ ([] : Str) ≠ "Unknown".data :=
  ⟨rfl, by decide, rfl, by decide⟩

/-- C1 (amended): the `Post N` and `Unknown` fallbacks apply exactly when the
`title` / `author` key is absent from the record; a present value — even the
empty string — is used as-is for the chapter title and the rendered author. -/
theorem C1_amended (n i : Nat) (post : Post) :
    (post.title = none → (mkChapter n i post).title = "Post ".data ++ (toString (i + 1)).data)
    ∧ (∀ t, post.title = some t → (mkChapter n i post).title = t)
    ∧ (post.author = none →
        (mkChapter n i post).content
          = create_chapter_html (mkChapter n i post).title "Unknown".data
              (post.url.getD []) (post.content.getD "No content available".data)
              (mkChapter n i post).prev_id (mkChapter n i post).next_id)
    ∧ (∀ a, post.author = some a →
        (mkChapter n i post).content
          = create_chapter_html (mkChapter n i post).title a
              (post.url.getD []) (post.content.getD "No content available".data)
              (mkChapter n i post).prev_id (mkChapter n i post).next_id) := by
  refine ⟨?_, ?_, ?_, ?_⟩
  · intro h
    simp [mkChapter, h]
  · intro t h
    simp [mkChapter, h]
  · intro h
    simp [mkChapter, h]
  · intro a h
    simp [mkChapter, h]

/-- Witness for C1: with both keys absent the fallbacks do kick in. -/
theorem C1_witness :
    (mkChapter 1 0 ⟨none, none, some "http://x".data, some "hello".data⟩).title
        = "Post ".data ++ (toString (0 + 1)).data
    ∧ (mkChapter 1 0 ⟨none, none, some "http://x".data, some "hello".data⟩).content
        = create_chapter_html
            (mkChapter 1 0 ⟨none, none, some "http://x".data, some "hello".data⟩).title
            "Unknown".data
            ((⟨none, none, some "http://x".data, some "hello".data⟩ : Post).url.getD [])
            ((⟨none, none, some "http://x".data, some "hello".data⟩ : Post).content.getD
              "No content available".data)
            (mkChapter 1 0 ⟨none, none, some "http://x".data, some "hello".data⟩).prev_id
            (mkChapter 1 0 ⟨none, none, some "http://x".data, some "hello".data⟩).next_id :=
  ⟨(C1_amended 1 0 ⟨none, none, some "http://x".data, some "hello".data⟩).1 rfl,
   (C1_amended 1 0 ⟨none, none, some "http://x".data, some "hello".data⟩).2.2.1 rfl⟩

/-- C3 counterexample: a strategy may return whitespace-only content, which
is truthy in the source's emptiness check, so `extract_content` can succeed
with a body that trims to the empty string. -/
theorem C3_counterexample :
    (extract_content "u".data (FetchResult.ok "<html>".data)
        (TrafLib.ok (some " ".data) none none) NewsLib.missing).success = true
    ∧ trimWs (extract_content "u".data (FetchResult.ok "<html>".data)
        (TrafLib.ok (some " ".data) none none) NewsLib.missing).content = []
    ∧ (extract_content "u".data (FetchResult.ok "<html>".data)
        (TrafLib.ok (some " ".data) none none) NewsLib.missing).content ≠ [] := by
  refine ⟨rfl, rfl, by decide⟩

/-- C3 (amended): every record returned by `extract_content` satisfies: if
`success` is true the body is a non-empty string (though possibly whitespace
only), and if `success` is false the body is empty or the fixed sentinel. -/
theorem C3_amended (url : Str) (fetch : FetchResult) (traf : TrafLib) (news : NewsLib) :
    ((extract_content url fetch traf news).success = true →
        (extract_content url fetch traf news).content ≠ [])
    ∧ ((extract_content url fetch traf news).success = false →
        (extract_content url fetch traf news).content = []
          ∨ (extract_content url fetch traf news).content = noContentSentinel) := by
  rcases fetch with html | e
  · rcases traf with _ | m | ⟨res, mt, ma⟩
    · rcases news with _ | m2 | ⟨text, t2, a2⟩ <;>
        simp [extract_content, extract_with_trafilatura, extract_with_newspaper] <;>
        split_ifs <;>
        simp_all [List.isEmpty_iff]
    · rcases news with _ | m2 | ⟨text, t2, a2⟩ <;>
        simp [extract_content, extract_with_trafilatura, extract_with_newspaper] <;>
        split_ifs <;>
        simp_all [List.isEmpty_iff]
    · rcases res with _ | result
      · rcases news with _ | m2 | ⟨text, t2, a2⟩ <;>
          simp [extract_content, extract_with_trafilatura, extract_with_newspaper] <;>
          split_ifs <;>
          simp_all [List.isEmpty_iff]
      · rcases news with _ | m2 | ⟨text, t2, a2⟩ <;>
          simp [extract_content, extract_with_trafilatura, extract_with_newspaper] <;>
          split_ifs <;>
          simp_all [List.isEmpty_iff]
  · constructor
    · intro h
      simp [extract_content] at h
    · intro _
      left
      rfl

/-- Witness for C3 at a fetch failure (empty body) and at strategy
exhaustion (sentinel body). -/
theorem C3_witness :
    ((extract_content "u".data (FetchResult.reqError "timeout".data)
        TrafLib.missing NewsLib.missing).content = []
      ∨ (extract_content "u".data (FetchResult.reqError "timeout".data)
          TrafLib.missing NewsLib.missing).content = noContentSentinel)
    ∧ ((extract_content "u".data (FetchResult.ok "<html>".data)
        TrafLib.missing NewsLib.missing).content = []
      ∨ (extract_content "u".data (FetchResult.ok "<html>".data)
          TrafLib.missing NewsLib.missing).content = noContentSentinel)
    ∧ (extract_content "u".data (FetchResult.ok "<html>".data)
        (TrafLib.ok (some "x".data) none none) NewsLib.missing).content ≠ [] :=
  ⟨(C3_amended "u".data (FetchResult.reqError "timeout".data)
      TrafLib.missing NewsLib.missing).2 rfl,
   (C3_amended "u".data (FetchResult.ok "<html>".data)
      TrafLib.missing NewsLib.missing).2 rfl,
   (C3_amended "u".data (FetchResult.ok "<html>".data)
      (TrafLib.ok (some "x".data) none none) NewsLib.missing).1 rfl⟩

/-- C7: `extract_content` is total and surfaces every failure through the
record: a raising or absent strategy library yields nothing (strategy
equals its absent form, and the overall result falls through to the next
strategy), and every returned record either succeeded or carries an
`error` detail. -/
theorem C7_fault_isolation (url html m1 m2 : Str) (fetch : FetchResult)
    (traf : TrafLib) (news : NewsLib) :
    extract_with_trafilatura url html (TrafLib.exn m1) = none
    ∧ extract_with_trafilatura url html TrafLib.missing = none
    ∧ extract_with_newspaper url html (NewsLib.exn m2) = none
    ∧ extract_with_newspaper url html NewsLib.missing = none
    ∧ extract_content url (FetchResult.ok html) (TrafLib.exn m1) news
        = extract_content url (FetchResult.ok html) TrafLib.missing news
    ∧ extract_content url (FetchResult.ok html) traf (NewsLib.exn m2)
        = extract_content url (FetchResult.ok html) traf NewsLib.missing
    ∧ ((extract_content url fetch traf news).success = true
        ∨ ((extract_content url fetch traf news).success = false
            ∧ ((extract_content url fetch traf news).error).isSome = true)) := by
  refine ⟨rfl, rfl, rfl, rfl, rfl, ?_, ?_⟩
  · rcases traf with _ | m | ⟨res, mt, ma⟩
    · rfl
    · rfl
    · rcases res with _ | result
      · rfl
      · simp [extract_content, extract_with_trafilatura, extract_with_newspaper]
  · rcases fetch with html2 | e
    · rcases traf with _ | m | ⟨res, mt, ma⟩
      · rcases news with _ | m2' | ⟨text, t2, a2⟩ <;>
          simp [extract_content, extract_with_trafilatura, extract_with_newspaper] <;>
          split_ifs <;>
          simp_all
      · rcases news with _ | m2' | ⟨text, t2, a2⟩ <;>
          simp [extract_content, extract_with_trafilatura, extract_with_newspaper] <;>
          split_ifs <;>
          simp_all
      · rcases res with _ | result
        · rcases news with _ | m2' | ⟨text, t2, a2⟩ <;>
            simp [extract_content, extract_with_trafilatura, extract_with_newspaper] <;>
            split_ifs <;>
            simp_all
        · rcases news with _ | m2' | ⟨text, t2, a2⟩ <;>
            simp [extract_content, extract_with_trafilatura, extract_with_newspaper] <;>
            split_ifs <;>
            simp_all
    · right
      exact ⟨rfl, rfl⟩

end HN2Kindle
